import Mathlib

/-!
Shallow embedding of the myjobmatch-backend job search pipeline
(Go sources: package models, tools, gemini, agent), together with
theorems that settle the specification claims about it.

Modelling conventions, used throughout:

* External capabilities (the Gemini text generation service, the Google
  Programmable Search Engine HTTP API, and the outbound page fetches) are
  modelled as oracle functions collected in a `Capabilities` structure.
  JSON marshalling/unmarshalling of well-formed in-process values
  (the `ToolResult` round-trips inside the tool wrappers) is modelled as
  the identity on the modelled values.
* Go `nil` pointers are modelled by `Option`; dereferencing `none` is a
  `RunError.panicked` outcome.
* Go `int` is modelled by `Int` where a value can be negative
  (match scores, salaries, the configured maximum result count) and by
  `Nat` for list lengths and the run statistics counters, which are only
  ever assigned list lengths.
* The three concurrent stages (fetch, extract, score) spawn one worker per
  item and collect results over an unordered channel.  The stages are
  modelled sequentially, in input order: every property proved about them
  here is insensitive to the fan-in permutation (lengths, memberships and
  per-item contents), except where the code fixes the order itself (the
  extraction stage truncates its worklist before spawning, and the final
  explicit sort).
-/

/-! ## Data model (package models) -/

/-- Embeds `models.Education`. -/
structure Education where
  Degree : String := ""
  Field : String := ""
  Institution : String := ""
  Year : Int := 0
deriving Repr, DecidableEq

/-- Embeds `models.WorkExperience`. -/
structure WorkExperience where
  Title : String := ""
  Company : String := ""
  Location : String := ""
  StartDate : String := ""
  EndDate : String := ""
  Description : String := ""
  Skills : List String := []
deriving Repr, DecidableEq

/-- Embeds `models.UserProfile`.  `Experience` is a Go `float64`; no claim
touches it, it is only carried along. -/
structure UserProfile where
  Name : String := ""
  Email : String := ""
  Phone : String := ""
  Summary : String := ""
  Title : String := ""
  Experience : Float := 0.0
  Skills : List String := []
  TechnicalStack : List String := []
  Languages : List String := []
  PreferredRoles : List String := []
  PreferredLocations : List String := []
  PreferredRemoteModes : List String := []
  PreferredJobTypes : List String := []
  MinSalary : Int := 0
  MaxSalary : Int := 0
  Currency : String := ""
  Education : List Education := []
  WorkHistory : List WorkExperience := []
  Certifications : List String := []
  Achievements : List String := []
deriving Repr, Inhabited

/-- Embeds `models.JobSearchFilter`. -/
structure JobSearchFilter where
  Locations : List String := []
  RemoteModes : List String := []
  JobTypes : List String := []
  MinSalary : Int := 0
  MaxSalary : Int := 0
  Currency : String := ""
  DatePosted : String := ""
deriving Repr, DecidableEq, Inhabited

/-- Embeds `models.JobPosting` (the `FlexibleStringSlice` for benefits is a
list of strings after unmarshalling). -/
structure JobPosting where
  Title : String := ""
  Company : String := ""
  Description : String := ""
  Location : String := ""
  WorkType : String := ""
  SiteSetting : String := ""
  URL : String := ""
  Source : String := ""
  Tags : List String := []
  Salary : String := ""
  DatePosted : String := ""
  ApplicationURL : String := ""
  Requirements : String := ""
  Benefits : List String := []
  ExperienceLevel : String := ""
deriving Repr, DecidableEq, Inhabited

/-- Embeds `models.RankedJob`; the Go struct embeds `JobPosting`, modelled
here as the field `posting`. -/
structure RankedJob where
  posting : JobPosting
  MatchScore : Int
  MatchReason : String
deriving Repr, DecidableEq, Inhabited

/-- Embeds `models.JobSearchResult` (one PSE search hit). -/
structure JobSearchResult where
  Title : String := ""
  URL : String := ""
  Snippet : String := ""
deriving Repr, DecidableEq, Inhabited

/-- Embeds `tools.PSEItem` (one raw item of the PSE JSON response). -/
structure PSEItem where
  Title : String := ""
  Link : String := ""
  Snippet : String := ""
deriving Repr, DecidableEq, Inhabited

/-- Embeds `models.FetchPageResponse`. -/
structure FetchPageResponse where
  HTML : String := ""
  URL : String := ""
  Error : String := ""
deriving Repr, DecidableEq, Inhabited

/-- Embeds `models.WebSearchResponse`. -/
structure WebSearchResponse where
  URLs : List String := []
  Results : List JobSearchResult := []
deriving Repr, DecidableEq, Inhabited

/-- Embeds `models.NormalizeWorkType` (part_003:93-108).  The Go `switch`
on the raw string with multiple case values per arm is rendered as
membership in the literal case lists; the `default` arm returns the raw
string unchanged. -/
def NormalizeWorkType (raw : String) : String :=
  if raw ∈ ["full-time", "Full-Time", "Full Time", "fulltime", "FULL_TIME"] then "full_time"
  else if raw ∈ ["part-time", "Part-Time", "Part Time", "parttime", "PART_TIME"] then "part_time"
  else if raw ∈ ["contract", "Contract", "CONTRACT", "contractor"] then "contract"
  else if raw ∈ ["internship", "Internship", "INTERNSHIP", "intern"] then "internship"
  else if raw ∈ ["freelance", "Freelance", "FREELANCE"] then "freelance"
  else raw

/-- Embeds `models.NormalizeSiteSetting` (part_003:111-122); the `default`
arm returns `"Unknown"`. -/
def NormalizeSiteSetting (raw : String) : String :=
  if raw ∈ ["remote", "Remote", "REMOTE", "work from home", "Work From Home", "wfh"] then "WFH"
  else if raw ∈ ["onsite", "Onsite", "ONSITE", "on-site", "On-Site", "office", "Office", "wfo", "work from office"] then "WFO"
  else if raw ∈ ["hybrid", "Hybrid", "HYBRID", "flexible"] then "Hybrid"
  else "Unknown"

/-- Embeds `models.UserProfile.MergeWithFilters` (part_005:94-113): every
non-empty / non-zero filter field overrides the profile field. -/
def MergeWithFilters (p : UserProfile) (filters : JobSearchFilter) : UserProfile :=
  let p := if filters.Locations.length > 0 then { p with PreferredLocations := filters.Locations } else p
  let p := if filters.RemoteModes.length > 0 then { p with PreferredRemoteModes := filters.RemoteModes } else p
  let p := if filters.JobTypes.length > 0 then { p with PreferredJobTypes := filters.JobTypes } else p
  let p := if filters.MinSalary > 0 then { p with MinSalary := filters.MinSalary } else p
  let p := if filters.MaxSalary > 0 then { p with MaxSalary := filters.MaxSalary } else p
  if filters.Currency ≠ "" then { p with Currency := filters.Currency } else p

/-- True when `MergeWithFilters` dereferences its receiver: with a `nil`
receiver, the first satisfied condition in the Go method panics.  Used to
model calling the method on a `nil` profile pointer. -/
def filtersTouchProfile (filters : JobSearchFilter) : Bool :=
  filters.Locations.length > 0 || filters.RemoteModes.length > 0 ||
  filters.JobTypes.length > 0 || decide (filters.MinSalary > 0) ||
  decide (filters.MaxSalary > 0) || filters.Currency ≠ ""

/-- Embeds `models.UserProfile.GenerateSearchQuery` (part_005:116-149):
title (or first preferred role), then up to the first three skills, the
first preferred location and the first preferred remote mode, each
followed by a space, then the literal `"job"`. -/
def GenerateSearchQuery (p : UserProfile) : String :=
  let q := ""
  let q := if p.Title ≠ "" then q ++ p.Title ++ " "
    else match p.PreferredRoles with
      | [] => q
      | role :: _ => q ++ role ++ " "
  let q := (p.Skills.take 3).foldl (fun q s => q ++ s ++ " ") q
  let q := match p.PreferredLocations with
    | [] => q
    | loc :: _ => q ++ loc ++ " "
  let q := match p.PreferredRemoteModes with
    | [] => q
    | mode :: _ => q ++ mode ++ " "
  q ++ "job"

/-! ## String helpers

The Go code indexes strings by byte offset (`strings.Index`,
`strings.TrimPrefix`, slicing).  The model works on the underlying
character list; for the ASCII tag/whitespace patterns the code searches
for, byte offsets and character offsets agree. -/

/-- Index of the first occurrence of `pat` in `hay` (`strings.Index`),
`none` when absent. -/
def idxOfSub : List Char → List Char → Option Nat
  | [], pat => if pat.isEmpty then some 0 else none
  | h :: t, pat =>
    if pat.isPrefixOf (h :: t) then some 0
    else (idxOfSub t pat).map (· + 1)

/-- Occurrence test, `strings.Contains`. -/
def containsSub (hay pat : List Char) : Bool := (idxOfSub hay pat).isSome

/-- Occurrence test on strings. -/
def containsSubStr (hay pat : String) : Bool := containsSub hay.data pat.data

/-- Lower-casing, `strings.ToLower` (character-wise). -/
def lowerStr (s : String) : String := String.mk (s.data.map Char.toLower)

/-- Go `strings.TrimPrefix`. -/
def trimPrefixStr (s pre : String) : String :=
  if pre.data.isPrefixOf s.data then String.mk (s.data.drop pre.data.length) else s

/-- Go `strings.TrimSuffix`. -/
def trimSuffixStr (s suf : String) : String :=
  if suf.data.isSuffixOf s.data then String.mk (s.data.take (s.data.length - suf.data.length)) else s

/-- Go `strings.TrimSpace` (leading and trailing whitespace removed). -/
def trimSpaceStr (s : String) : String :=
  String.mk (((s.data.dropWhile Char.isWhitespace).reverse.dropWhile Char.isWhitespace).reverse)

/-- First `n` characters of a string (Go byte-slicing `s[:n]` of a string
already known to be longer, modelled at character granularity). -/
def takeChars (s : String) (n : Nat) : String := String.mk (s.data.take n)

/-- One left-to-right pass of `strings.Replace`/`ReplaceAll`:
non-overlapping occurrences of `pat` replaced by `rep`. -/
def replacePass (fuel : Nat) (pat rep hay : List Char) : List Char :=
  match fuel with
  | 0 => hay
  | fuel + 1 =>
    match hay with
    | [] => []
    | h :: t =>
      if ¬ pat.isEmpty ∧ pat.isPrefixOf hay then rep ++ replacePass fuel pat rep (hay.drop pat.length)
      else h :: replacePass fuel pat rep t

/-- Embeds the `for strings.Contains(html, pat) { html = ReplaceAll(html, pat, rep) }`
collapse loops of `cleanHTML` (part_010:149-154). -/
def collapseLoop (fuel : Nat) (pat rep : List Char) (hay : List Char) : List Char :=
  match fuel with
  | 0 => hay
  | fuel + 1 =>
    if containsSub hay pat then collapseLoop fuel pat rep (replacePass (hay.length + 1) pat rep hay)
    else hay

/-- Embeds the `<script>`/`<style>` stripping loops of `cleanHTML`
(part_010:121-147): find the opening tag in the lower-cased text, find the
closing tag after it, splice both out together with everything between. -/
def stripTagBlocks (fuel : Nat) (openT closeT : List Char) (closeLen : Nat) (html : List Char) : List Char :=
  match fuel with
  | 0 => html
  | fuel + 1 =>
    match idxOfSub (html.map Char.toLower) openT with
    | none => html
    | some start =>
      match idxOfSub ((html.drop start).map Char.toLower) closeT with
      | none => html
      | some e => stripTagBlocks fuel openT closeT closeLen (html.take start ++ html.drop (start + e + closeLen))

/-- Embeds `FetchPageTool.cleanHTML` (part_010:121-157). -/
def cleanHTML (s : String) : String :=
  let cs := s.data
  let cs := stripTagBlocks (cs.length + 1) "<script".data "</script>".data 9 cs
  let cs := stripTagBlocks (cs.length + 1) "<style".data "</style>".data 8 cs
  let cs := collapseLoop (cs.length + 1) "  ".data " ".data cs
  let cs := collapseLoop (cs.length + 1) "\n\n\n".data "\n\n".data cs
  trimSpaceStr (String.mk cs)

/-- Embeds `gemini.cleanJSON` (part_006:413-421). -/
def cleanJSON (text : String) : String :=
  let text := trimSpaceStr text
  let text := trimPrefixStr text "```json"
  let text := trimPrefixStr text "```"
  let text := trimSuffixStr text "```"
  trimSpaceStr text

/-! ## External capabilities (oracles)

Each field models one outbound call of the repository.  The Gemini calls
collapse prompt construction, the HTTP exchange and (except for the
refine call, whose two failure modes behave differently and are claimed
about) the JSON decoding of the response into a single `Except`-valued
function.  The PSE search and the page fetches are per-call oracles. -/

/-- Outcome of one outbound HTTP GET in the fetch tool: a transport error
(`client.Do` or request creation failing, a timeout, too many redirects)
or a response with a status code and body. -/
inductive FetchOutcome where
  | netError (msg : String)
  | response (status : Nat) (body : String)

/-- The oracle bundle.  `isPreferredDetailURL` is the per-host detail-URL
predicate of part_011:204-229; its body parses the URL with `net/url`
(standard library) and inspects query parameters, and is modelled as an
opaque predicate because no claim depends on its verdicts. -/
structure Capabilities where
  parseCVFromPDF : List Nat → String → Except String UserProfile
  parseCVText : String → Except String UserProfile
  refineGenerate : UserProfile → String → Except String String
  refineUnmarshal : String → Option UserProfile
  deriveProfileFromQuery : String → Except String UserProfile
  searchPage : String → Nat → Except String (List PSEItem)
  fetchHTTP : String → FetchOutcome
  extractJobGen : String → String → Except String JobPosting
  scoreJobGen : UserProfile → JobPosting → Except String (Int × String)
  isPreferredDetailURL : String → Bool

/-- Boolean error test on `Except`. -/
def isErrE : Except ε α → Bool
  | .error _ => true
  | .ok _ => false

/-! ## Fetch tool (part_010) -/

/-- Embeds `FetchPageTool.fetchPage` (part_010:83-119): non-200 statuses
are errors, successful bodies are size-capped and sanitized. -/
def fetchPage (caps : Capabilities) (pageURL : String) : Except String String :=
  match caps.fetchHTTP pageURL with
  | .netError m => .error ("failed to fetch page: " ++ m)
  | .response status body =>
    if status ≠ 200 then .error ("page returned status " ++ toString status)
    else .ok (cleanHTML (takeChars body 5242880))

/-- Embeds `FetchPageTool.FetchURL` (part_010:160-186) together with the
tool `Execute` wrapper: a failed fetch becomes a per-URL outcome with the
error message and empty HTML, never a dropped entry. -/
def FetchURL (caps : Capabilities) (url : String) : FetchPageResponse :=
  match fetchPage caps url with
  | .error e => { URL := url, Error := "fetch failed: " ++ e }
  | .ok html => { HTML := html, URL := url }

/-! ## Gemini client (part_006) -/

/-- Embeds `gemini.Client.RefineProfileWithQuery` (part_006:323-358).
The generate call failing returns `(nil, err)`; an undecodable response
returns the original profile with a nil error. -/
def RefineProfileWithQuery (caps : Capabilities) (profile : UserProfile) (query : String) :
    Option UserProfile × Option String :=
  match caps.refineGenerate profile query with
  | .error e => (none, some ("failed to generate content: " ++ e))
  | .ok text =>
    match caps.refineUnmarshal (cleanJSON text) with
    | none => (some profile, none)
    | some updated => (some updated, none)

/-- Embeds `gemini.Client.ExtractJobFromHTML` (part_006:214-275) plus the
`ExtractJobTool` wrapper: the HTML is truncated to 50000 characters, the
oracle covers the generate call, the not-a-job-posting sentinel and the
JSON decode; on success the URL and source are force-set from the crawl
URL and the work-type/site-setting strings are normalized. -/
def ExtractFromHTML (caps : Capabilities) (html url : String) : Except String JobPosting :=
  match caps.extractJobGen (takeChars html 50000) url with
  | .error e => .error e
  | .ok job => .ok { job with
      URL := url
      Source := "web"
      WorkType := NormalizeWorkType job.WorkType
      SiteSetting := NormalizeSiteSetting job.SiteSetting }

/-! ## Search tool (part_011) -/

/-- The fixed job-portal scope filters (part_011:125-133). -/
def jobPortalSites : List String :=
  ["site:linkedin.com/jobs/view", "site:jobstreet.com", "site:jobstreet.co.id",
   "site:dealls.com/loker", "site:glints.com/opportunities", "site:kalibrr.com/c",
   "site:id.indeed.com"]

/-- Embeds `tools.SearchInput`. -/
structure SearchInput where
  Query : String := ""
  Locations : List String := []
  RemoteModes : List String := []
deriving Repr, DecidableEq, Inhabited

/-- Embeds `SearchWebTool.buildQuery` (part_011:135-163). -/
def buildQuery (input : SearchInput) : String :=
  let parts := [input.Query]
  let parts := if ¬ containsSubStr (lowerStr input.Query) "job" then parts ++ ["job"] else parts
  let parts := match input.Locations with
    | [] => parts
    | loc :: _ => parts ++ [loc]
  let parts := match input.RemoteModes with
    | [] => parts
    | mode :: _ =>
      if mode = "WFH" then parts ++ ["remote"]
      else if mode = "Hybrid" then parts ++ ["hybrid"]
      else parts
  String.intercalate " " parts

/-- Accumulator of the scope loop in `SearchWebTool.search`: the `seen`
URL set and the accumulated unique items. -/
structure SearchAcc where
  seen : List String
  items : List PSEItem

/-- Embeds the per-item loop of `SearchWebTool.search` (part_011:186-191):
keep an item when its URL is unseen and passes the detail-URL predicate. -/
def addItems (caps : Capabilities) (acc : SearchAcc) : List PSEItem → SearchAcc
  | [] => acc
  | it :: rest =>
    if ¬ acc.seen.contains it.Link ∧ caps.isPreferredDetailURL it.Link then
      addItems caps { seen := it.Link :: acc.seen, items := acc.items ++ [it] } rest
    else addItems caps acc rest

/-- The pagination offsets of the `for start := 1; start <= 50; start += 10`
loop (part_011:177). -/
def searchStarts : List Nat := [1, 11, 21, 31, 41]

/-- Embeds the pagination loop of `SearchWebTool.search` for one scope
(part_011:172-196): a page error abandons the scope (the error is only
logged), a short page (< 10 items) stops pagination early. -/
def searchScope (caps : Capabilities) (siteQuery : String) (acc : SearchAcc) :
    List Nat → SearchAcc
  | [] => acc
  | start :: rest =>
    match caps.searchPage siteQuery start with
    | .error _ => acc
    | .ok items =>
      let acc := addItems caps acc items
      if items.length < 10 then acc else searchScope caps siteQuery acc rest

/-- Embeds `SearchWebTool.search` (part_011:165-201): every scope is
searched in order against a shared deduplication set; the function always
returns `nil` error, so the accumulated items are returned even when every
provider call failed. -/
def searchWeb (caps : Capabilities) (query : String) : List PSEItem :=
  (jobPortalSites.foldl
    (fun acc site => searchScope caps (query ++ " " ++ site) acc searchStarts)
    ⟨[], []⟩).items

/-- Embeds `SearchWebTool.SearchWithProfile` (part_011:273-321) together
with the tool `Execute` wrapper (part_011:88-122): build the search input
from query, filters and profile, run the scoped search, return URLs and
result metadata.  The profile pointer is non-nil at the call site modelled
here (the agent has already dereferenced it), so the Go nil-guards are
taken as satisfied. -/
def SearchWithProfile (caps : Capabilities) (profile : UserProfile) (query : String)
    (filters : JobSearchFilter) : WebSearchResponse :=
  let q := if query = "" then GenerateSearchQuery profile else query
  let locs := if filters.Locations.length = 0 then profile.PreferredLocations else filters.Locations
  let modes := if filters.RemoteModes.length = 0 then profile.PreferredRemoteModes else filters.RemoteModes
  let items := searchWeb caps (buildQuery { Query := q, Locations := locs, RemoteModes := modes })
  { URLs := items.map (·.Link)
    Results := items.map (fun it => { Title := it.Title, URL := it.Link, Snippet := it.Snippet }) }

/-! ## The final sort

The agent sorts the surviving ranked jobs with
`sort.Slice(rankedJobs, func(i, j int) bool { return rankedJobs[i].MatchScore > rankedJobs[j].MatchScore })`
(part_013:185-187).  `sort.Slice` guarantees that afterwards the slice is
sorted according to the comparator (and is a permutation of its input) but
is documented as not guaranteed stable.

The pipeline model below uses `goInsertionSort`, a structural rendering of
the insertion sort `sort.Slice` itself runs on every segment of at most 12
elements: the accumulator is the already-processed portion of the slice in
reverse order, and `insertR` is the inner
`for j := i; j > a && data.Less(j, j-1); j-- { data.Swap(j, j-1) }`
loop, which moves element `i` left past exactly the maximal run of
neighbours it compares less than.  `goInsertionSort` satisfies the full
`sort.Slice` contract, so every property of the pipeline proved through it
holds of the real code except tie order beyond 12 elements — that gap is
exactly the subject of claim C3, settled separately against `goSortSlice`,
the embedding of the complete pdqsort algorithm `sort.Slice` dispatches to
(Go ≥ 1.19, as required by the repository's dependencies). -/

/-- One bubbling pass of Go insertion sort: insert `x` into the reversed
already-processed prefix `rev` (head of `rev` = rightmost element),
passing exactly the elements `x` compares `less` than. -/
def insertR (less : α → α → Bool) (x : α) : List α → List α
  | [] => [x]
  | y :: rev => if less x y then y :: insertR less x rev else x :: y :: rev

/-- Tail of `goInsertionSort`: fold the remaining elements into the
reversed prefix. -/
def goInsertionSortAux (less : α → α → Bool) : List α → List α → List α
  | rev, [] => rev.reverse
  | rev, x :: rest => goInsertionSortAux less (insertR less x rev) rest

/-- The insertion sort `sort.Slice` runs on segments of at most 12
elements (`insertionSort_func` of Go's sort package), as a structural
list function. -/
def goInsertionSort (less : α → α → Bool) (l : List α) : List α :=
  goInsertionSortAux less [] l

/-- The comparator of the final sort (part_013:186). -/
def lessRanked (a b : RankedJob) : Bool := b.MatchScore < a.MatchScore

/-! ## Agent (part_013) -/

/-- A run aborts either with a wrapped Go error returned to the caller or
with a runtime panic (nil-pointer dereference / slice bounds). -/
inductive RunError where
  | goError (msg : String)
  | panicked (what : String)
deriving Repr, DecidableEq

/-- Embeds `agent.SearchJobsInput` (part_013:72-78). -/
structure SearchJobsInput where
  CVText : String := ""
  CVFileData : List Nat := []
  CVFileName : String := ""
  Query : String := ""
  Filters : JobSearchFilter := {}
deriving Repr, Inhabited

/-- Embeds `agent.SearchStats` (part_013:88-96). -/
structure SearchStats where
  URLsFound : Nat := 0
  PagesFetched : Nat := 0
  JobsExtracted : Nat := 0
  JobsScored : Nat := 0
  JobsReturned : Nat := 0
  FetchErrors : Nat := 0
  ExtractErrors : Nat := 0
deriving Repr, DecidableEq, Inhabited

/-- Embeds `agent.SearchJobsOutput` (part_013:81-85). -/
structure SearchJobsOutput where
  Results : List RankedJob
  Profile : Option UserProfile
  Stats : SearchStats
deriving Repr, Inhabited

/-- The configuration the agent reads, `cfg.MaxJobResults`
(config.go: `MAX_JOB_RESULTS`, default 50; a Go `int`). -/
structure AgentConfig where
  MaxJobResults : Int := 50
deriving Repr, DecidableEq, Inhabited

/-- Embeds `agent.isPDFFile` (part_013:409-412). -/
def isPDFFile (filename : String) : Bool :=
  ".pdf".data.isSuffixOf (lowerStr filename).data

/-- Embeds `agent.JobAgent.buildUserProfile` (part_013:206-259).  The Go
variable `profile` is a possibly-nil pointer, modelled as an `Option`:
note that the multiple assignment
`profile, err = a.geminiClient.RefineProfileWithQuery(...)` overwrites
`profile` with the call's first return value even when the call errors,
and `RefineProfileWithQuery` returns `(nil, err)` exactly when its
generate call fails.  The final `profile.MergeWithFilters(input.Filters)`
dereferences the possibly-nil pointer as soon as a filter field is set. -/
def buildUserProfile (caps : Capabilities) (input : SearchJobsInput) :
    Except RunError (Option UserProfile) :=
  let step : Except RunError (Option UserProfile) :=
    if input.CVFileData.length > 0 ∧ isPDFFile input.CVFileName then
      match caps.parseCVFromPDF input.CVFileData input.CVFileName with
      | .error e => .error (.goError ("CV PDF parsing failed: " ++ e))
      | .ok profile =>
        if input.Query ≠ "" then .ok (RefineProfileWithQuery caps profile input.Query).1
        else .ok (some profile)
    else if input.CVText ≠ "" then
      match caps.parseCVText input.CVText with
      | .error e => .error (.goError ("CV parsing failed: " ++ e))
      | .ok profile =>
        if input.Query ≠ "" then .ok (RefineProfileWithQuery caps profile input.Query).1
        else .ok (some profile)
    else if input.Query ≠ "" then
      match caps.deriveProfileFromQuery input.Query with
      | .error _ => .ok (some {})
      | .ok profile => .ok (some profile)
    else .ok (some {})
  match step with
  | .error e => .error e
  | .ok none =>
    if filtersTouchProfile input.Filters then .error (.panicked "nil profile in MergeWithFilters")
    else .ok none
  | .ok (some p) => .ok (some (MergeWithFilters p input.Filters))

/-- Eligibility test of the extraction pre-filter (part_013:312): no fetch
error and non-empty HTML. -/
def eligiblePage (p : FetchPageResponse) : Bool :=
  p.Error = "" && p.HTML ≠ ""

/-- The `validPages` list of `extractJobsConcurrently` (part_013:310-315). -/
def validPagesOf (pages : List FetchPageResponse) : List FetchPageResponse :=
  pages.filter eligiblePage

/-- The worklist actually handed to extraction workers: the eligible pages,
truncated to the first `maxJobsToExtract = 10` in input order
(part_013:317-321). -/
def extractAttempts (pages : List FetchPageResponse) : List FetchPageResponse :=
  let valid := validPagesOf pages
  if valid.length > 10 then valid.take 10 else valid

/-- Embeds `agent.JobAgent.extractJobsConcurrently` (part_013:302-357):
extraction is attempted on `extractAttempts pages`; a failed extraction or
an empty title drops only that page. -/
def extractJobsConcurrently (caps : Capabilities) (pages : List FetchPageResponse) :
    List JobPosting :=
  (extractAttempts pages).filterMap (fun p =>
    match ExtractFromHTML caps p.HTML p.URL with
    | .error _ => none
    | .ok job => if job.Title ≠ "" then some job else none)

/-- Embeds `agent.JobAgent.scoreJobsConcurrently` (part_013:360-401): one
ranked job per posting; a failed scoring call yields the neutral score 50
and the fixed fallback reason. -/
def scoreJobsConcurrently (caps : Capabilities) (profile : UserProfile)
    (jobs : List JobPosting) : List RankedJob :=
  jobs.map (fun j =>
    match caps.scoreJobGen profile j with
    | .ok (score, reason) => { posting := j, MatchScore := score, MatchReason := reason }
    | .error _ => { posting := j, MatchScore := 50, MatchReason := "Unable to calculate match score" })

/-- The ranking and filtering step of `SearchJobs` (part_013:175-193):
drop scores below 50, sort descending with `sort.Slice` (modelled by
`goInsertionSort`, see above), truncate to `cfg.MaxJobResults`.  Go
evaluates `rankedJobs[:maxResults]` only under `len(rankedJobs) > maxResults`;
with a negative configured maximum that slice expression panics. -/
def rankStage (cfg : AgentConfig) (rankedJobs : List RankedJob) : Except RunError (List RankedJob) :=
  let filtered := rankedJobs.filter (fun job => 50 ≤ job.MatchScore)
  let sorted := goInsertionSort lessRanked filtered
  if (sorted.length : Int) > cfg.MaxJobResults then
    if cfg.MaxJobResults < 0 then .error (.panicked "slice bounds out of range")
    else .ok (sorted.take cfg.MaxJobResults.toNat)
  else .ok sorted

/-- The effective query of `SearchJobs` (part_013:114-117): the caller's
query, or the profile-generated one when the caller supplied none. -/
def effectiveQueryOf (input : SearchJobsInput) (profile : UserProfile) : String :=
  if input.Query = "" then GenerateSearchQuery profile else input.Query

/-- Embeds `agent.JobAgent.fetchPagesConcurrently` (part_013:262-300): one
outcome per URL.  The workers send into an unordered channel; the
collected list is modelled in input order (every property proved about it
is order-insensitive). -/
def fetchPagesConcurrently (caps : Capabilities) (urls : List String) : List FetchPageResponse :=
  urls.map (FetchURL caps)

/-- Embeds `agent.JobAgent.SearchJobs` (part_013:98-203), the pipeline
entry point (`RunSearch` of the specification). -/
def SearchJobs (cfg : AgentConfig) (caps : Capabilities) (input : SearchJobsInput) :
    Except RunError SearchJobsOutput :=
  match buildUserProfile caps input with
  | .error (.goError m) => .error (.goError ("failed to build user profile: " ++ m))
  | .error e => .error e
  | .ok none => .error (.panicked "nil profile dereference in SearchJobs")
  | .ok (some profile) =>
    let searchResp := SearchWithProfile caps profile (effectiveQueryOf input profile) input.Filters
    let stats := { URLsFound := searchResp.URLs.length : SearchStats }
    if searchResp.URLs.length = 0 then
      .ok { Results := [], Profile := some profile, Stats := stats }
    else
      let fetchedPages := fetchPagesConcurrently caps searchResp.URLs
      let stats := { stats with
        PagesFetched := fetchedPages.length
        FetchErrors := (fetchedPages.filter (fun (p : FetchPageResponse) => decide (p.Error ≠ ""))).length }
      let jobs := extractJobsConcurrently caps fetchedPages
      let stats := { stats with JobsExtracted := jobs.length }
      if jobs.length = 0 then
        .ok { Results := [], Profile := some profile, Stats := stats }
      else
        let jobs := if jobs.length > 30 then jobs.take 30 else jobs
        let rankedJobs := scoreJobsConcurrently caps profile jobs
        let stats := { stats with JobsScored := rankedJobs.length }
        match rankStage cfg rankedJobs with
        | .error e => .error e
        | .ok final =>
          .ok { Results := final, Profile := some profile,
                Stats := { stats with JobsReturned := final.length } }

/-! ## The complete `sort.Slice` algorithm (pdqsort)

`goSortSlice` embeds the algorithm `sort.Slice` runs (`pdqsort_func` and
its helpers from Go's sort package, Go ≥ 1.19): pattern-defeating
quicksort with insertion sort below 13 elements, heap-sort fallback, a
sortedness-hint pivot choice and deterministic pattern breaking.  The
slice is modelled as a list indexed with `lgetD`/`lswap`; the unbounded
`for` loops carry explicit fuel that exceeds the number of iterations the
algorithm can perform on the inputs evaluated here (every recursion
strictly shrinks the subrange, so depth is at most the length). -/

/-- Element at index `i` (indices produced by the algorithm are in range;
out-of-range reads return `default` and never occur on the evaluated
inputs). -/
def lgetD [Inhabited α] (l : List α) (i : Nat) : α := l.getD i default

/-- Swap of two indices, `data.Swap(i, j)`. -/
def lswap (l : List α) (i j : Nat) : List α :=
  match l.get? i, l.get? j with
  | some x, some y => (l.set i y).set j x
  | _, _ => l

/-- Comparator on indices, `data.Less(i, j)`. -/
def idxLess (less : α → α → Bool) [Inhabited α] (l : List α) (i j : Nat) : Bool :=
  less (lgetD l i) (lgetD l j)

/-- The `sortedHint` enumeration of Go's sort package. -/
inductive SortedHint where
  | increasing
  | decreasing
  | unknown
deriving DecidableEq, Repr

/-- `insertionSort_func(data, a, b)` applied to the subrange `[a, b)`. -/
def insertionSortRange (less : α → α → Bool) (l : List α) (a b : Nat) : List α :=
  l.take a ++ goInsertionSort less ((l.drop a).take (b - a)) ++ l.drop b

/-- `siftDown_func(data, root, hi, first)`. -/
def siftDownF (less : α → α → Bool) [Inhabited α] (fuel : Nat) (l : List α)
    (root hi first : Nat) : List α :=
  match fuel with
  | 0 => l
  | fuel + 1 =>
    let child := 2 * root + 1
    if child ≥ hi then l
    else
      let child := if child + 1 < hi ∧ idxLess less l (first + child) (first + child + 1) then child + 1 else child
      if ¬ idxLess less l (first + root) (first + child) then l
      else siftDownF less fuel (lswap l (first + root) (first + child)) child hi first

/-- `heapSort_func(data, a, b)`. -/
def heapSortRange (less : α → α → Bool) [Inhabited α] (l : List α) (a b : Nat) : List α :=
  let hi := b - a
  let l := ((List.range ((hi - 1) / 2 + 1)).reverse).foldl
    (fun l i => siftDownF less (l.length + 2) l i hi a) l
  ((List.range hi).reverse).foldl
    (fun l i => siftDownF less (l.length + 2) (lswap l a (a + i)) 0 i a) l

/-- `reverseRange_func(data, a, b)` (called with `i = a`, `j = b-1`). -/
def reverseRangeF (fuel : Nat) (l : List α) (i j : Nat) : List α :=
  match fuel with
  | 0 => l
  | fuel + 1 => if i < j then reverseRangeF fuel (lswap l i j) (i + 1) (j - 1) else l

/-- Go `bits.Len` on a `uint`. -/
def bitsLen (n : Nat) : Nat := if n = 0 then 0 else Nat.log2 n + 1

/-- One step of the `xorshift` generator of Go's sort package
(`uint64` arithmetic, wrapping). -/
def xorshiftNext (r : Nat) : Nat :=
  let r := (r ^^^ ((r <<< 13) % 2 ^ 64)) % 2 ^ 64
  let r := (r ^^^ (r >>> 7)) % 2 ^ 64
  (r ^^^ ((r <<< 17) % 2 ^ 64)) % 2 ^ 64

/-- `breakPatterns_func(data, a, b)`: three deterministic pseudo-random
swaps around the midpoint, seeded with the subrange length. -/
def breakPatternsF (l : List α) (a b : Nat) : List α :=
  let len := b - a
  if len ≥ 8 then
    let modulus := 1 <<< bitsLen len
    let idx := a + (len / 4) * 2 - 1
    let r0 := xorshiftNext len
    let r1 := xorshiftNext r0
    let r2 := xorshiftNext r1
    let pick := fun (rnd : Nat) => let o := rnd &&& (modulus - 1); if o ≥ len then o - len else o
    let l := lswap l (idx - 1) (a + pick r0)
    let l := lswap l idx (a + pick r1)
    lswap l (idx + 1) (a + pick r2)
  else l

/-- `order2_func`: order two indices by comparison, counting swaps. -/
def order2F (less : α → α → Bool) [Inhabited α] (l : List α) (i j swaps : Nat) :
    Nat × Nat × Nat :=
  if idxLess less l j i then (j, i, swaps + 1) else (i, j, swaps)

/-- `median_func`: index of the median of three, counting swaps. -/
def medianF (less : α → α → Bool) [Inhabited α] (l : List α) (a b c swaps : Nat) :
    Nat × Nat :=
  let p1 := order2F less l a b swaps
  let p2 := order2F less l p1.2.1 c p1.2.2
  let p3 := order2F less l p1.1 p2.1 p2.2.2
  (p3.2.1, p3.2.2)

/-- `medianAdjacent_func`: median of an index and its neighbours. -/
def medianAdjacentF (less : α → α → Bool) [Inhabited α] (l : List α) (i swaps : Nat) :
    Nat × Nat :=
  medianF less l (i - 1) i (i + 1) swaps

/-- `choosePivot_func(data, a, b)`: ninther/median-of-three pivot with a
sortedness hint derived from the swap count. -/
def choosePivotF (less : α → α → Bool) [Inhabited α] (l : List α) (a b : Nat) :
    Nat × SortedHint :=
  let len := b - a
  let i0 := a + len / 4 * 1
  let j0 := a + len / 4 * 2
  let k0 := a + len / 4 * 3
  let r :=
    if len ≥ 8 then
      if len ≥ 50 then
        let m1 := medianAdjacentF less l i0 0
        let m2 := medianAdjacentF less l j0 m1.2
        let m3 := medianAdjacentF less l k0 m2.2
        medianF less l m1.1 m2.1 m3.1 m3.2
      else medianF less l i0 j0 k0 0
    else (j0, 0)
  (r.1, if r.2 = 0 then SortedHint.increasing
        else if r.2 = 12 then SortedHint.decreasing
        else SortedHint.unknown)

/-- Scan `for i < b && !Less(i, i-1) { i++ }` of `partialInsertionSort_func`. -/
def scanSortedF (less : α → α → Bool) [Inhabited α] (fuel : Nat) (l : List α) (i b : Nat) : Nat :=
  match fuel with
  | 0 => i
  | fuel + 1 => if i < b ∧ ¬ idxLess less l i (i - 1) then scanSortedF less fuel l (i + 1) b else i

/-- Downward shift loop of `partialInsertionSort_func`. -/
def shiftDownF (less : α → α → Bool) [Inhabited α] (fuel : Nat) (l : List α) (j : Nat) : List α :=
  match fuel with
  | 0 => l
  | fuel + 1 =>
    if j ≥ 1 ∧ idxLess less l j (j - 1) then shiftDownF less fuel (lswap l j (j - 1)) (j - 1) else l

/-- Upward shift loop of `partialInsertionSort_func`. -/
def shiftUpF (less : α → α → Bool) [Inhabited α] (fuel : Nat) (l : List α) (j b : Nat) : List α :=
  match fuel with
  | 0 => l
  | fuel + 1 =>
    if j < b ∧ idxLess less l j (j - 1) then shiftUpF less fuel (lswap l j (j - 1)) (j + 1) b else l

/-- The step loop of `partialInsertionSort_func` (at most `maxSteps = 5`
attempted element moves). -/
def partialISgo (less : α → α → Bool) [Inhabited α] (steps : Nat) (l : List α) (a b i : Nat) :
    List α × Bool :=
  match steps with
  | 0 => (l, false)
  | steps + 1 =>
    let i := scanSortedF less (b + 1) l i b
    if i = b then (l, true)
    else if b - a < 50 then (l, false)
    else
      let l := lswap l i (i - 1)
      let l := if i - a ≥ 2 then shiftDownF less i l (i - 1) else l
      let l := if b - i ≥ 2 then shiftUpF less b l (i + 1) b else l
      partialISgo less steps l a b i

/-- `partialInsertionSort_func(data, a, b)`: returns the (possibly
modified) data and whether it ended fully sorted. -/
def partialISF (less : α → α → Bool) [Inhabited α] (l : List α) (a b : Nat) : List α × Bool :=
  partialISgo less 5 l a b (a + 1)

/-- Scan `for i <= j && Less(i, a) { i++ }` of `partition_func`. -/
def scanIF (less : α → α → Bool) [Inhabited α] (fuel : Nat) (l : List α) (a i j : Nat) : Nat :=
  match fuel with
  | 0 => i
  | fuel + 1 => if i ≤ j ∧ idxLess less l i a then scanIF less fuel l a (i + 1) j else i

/-- Scan `for i <= j && !Less(j, a) { j-- }` of `partition_func`. -/
def scanJF (less : α → α → Bool) [Inhabited α] (fuel : Nat) (l : List α) (a i j : Nat) : Nat :=
  match fuel with
  | 0 => j
  | fuel + 1 => if i ≤ j ∧ ¬ idxLess less l j a then scanJF less fuel l a i (j - 1) else j

/-- Main swap loop of `partition_func`. -/
def partitionMainF (less : α → α → Bool) [Inhabited α] (fuel : Nat) (l : List α) (a i j : Nat) :
    List α × Nat × Bool :=
  match fuel with
  | 0 => (l, j, false)
  | fuel + 1 =>
    let i2 := scanIF less (l.length + 2) l a i j
    let j2 := scanJF less (l.length + 2) l a i2 j
    if i2 > j2 then (lswap l j2 a, j2, false)
    else partitionMainF less fuel (lswap l i2 j2) a (i2 + 1) (j2 - 1)

/-- `partition_func(data, a, b, pivot)`: Hoare partition around the pivot,
returning the data, the new pivot index and the already-partitioned flag. -/
def partitionF (less : α → α → Bool) [Inhabited α] (l : List α) (a b pivot : Nat) :
    List α × Nat × Bool :=
  let l := lswap l a pivot
  let i := scanIF less (l.length + 2) l a (a + 1) (b - 1)
  let j := scanJF less (l.length + 2) l a i (b - 1)
  if i > j then (lswap l j a, j, true)
  else partitionMainF less (l.length + 2) (lswap l i j) a (i + 1) (j - 1)

/-- Scan `for i <= j && !Less(a, i) { i++ }` of `partitionEqual_func`. -/
def scanEqIF (less : α → α → Bool) [Inhabited α] (fuel : Nat) (l : List α) (a i j : Nat) : Nat :=
  match fuel with
  | 0 => i
  | fuel + 1 => if i ≤ j ∧ ¬ idxLess less l a i then scanEqIF less fuel l a (i + 1) j else i

/-- Scan `for i <= j && Less(a, j) { j-- }` of `partitionEqual_func`. -/
def scanEqJF (less : α → α → Bool) [Inhabited α] (fuel : Nat) (l : List α) (a i j : Nat) : Nat :=
  match fuel with
  | 0 => j
  | fuel + 1 => if i ≤ j ∧ idxLess less l a j then scanEqJF less fuel l a i (j - 1) else j

/-- Swap loop of `partitionEqual_func`. -/
def partitionEqualLoopF (less : α → α → Bool) [Inhabited α] (fuel : Nat) (l : List α)
    (a i j : Nat) : List α × Nat :=
  match fuel with
  | 0 => (l, i)
  | fuel + 1 =>
    let i2 := scanEqIF less (l.length + 2) l a i j
    let j2 := scanEqJF less (l.length + 2) l a i2 j
    if i2 > j2 then (l, i2)
    else partitionEqualLoopF less fuel (lswap l i2 j2) a (i2 + 1) (j2 - 1)

/-- `partitionEqual_func(data, a, b, pivot)`. -/
def partitionEqualF (less : α → α → Bool) [Inhabited α] (l : List α) (a b pivot : Nat) :
    List α × Nat :=
  let l := lswap l a pivot
  partitionEqualLoopF less (l.length + 2) l a (a + 1) (b - 1)

/-- `pdqsort_func(data, a, b, limit)` with its local flags made explicit
(both start `true` on entry and `continue`/recursion update them exactly
as in Go). -/
def pdqsortLoop (less : α → α → Bool) [Inhabited α] (fuel : Nat) (l : List α)
    (a b limit : Nat) (wasBalanced wasPartitioned : Bool) : List α :=
  match fuel with
  | 0 => l
  | fuel + 1 =>
    let len := b - a
    if len ≤ 12 then insertionSortRange less l a b
    else if limit = 0 then heapSortRange less l a b
    else
      let l := if ¬ wasBalanced then breakPatternsF l a b else l
      let limit := if ¬ wasBalanced then limit - 1 else limit
      let ph := choosePivotF less l a b
      let l2 := if ph.2 = SortedHint.decreasing then reverseRangeF (l.length + 2) l a (b - 1) else l
      let pivot := if ph.2 = SortedHint.decreasing then (b - 1) - (ph.1 - a) else ph.1
      let hint := if ph.2 = SortedHint.decreasing then SortedHint.increasing else ph.2
      let pis := if wasBalanced ∧ wasPartitioned ∧ hint = SortedHint.increasing
        then partialISF less l2 a b else (l2, false)
      if pis.2 then pis.1
      else
        let l3 := pis.1
        if a > 0 ∧ ¬ idxLess less l3 (a - 1) pivot then
          let pe := partitionEqualF less l3 a b pivot
          pdqsortLoop less fuel pe.1 pe.2 b limit wasBalanced wasPartitioned
        else
          let pr := partitionF less l3 a b pivot
          let mid := pr.2.1
          let wasP := pr.2.2
          let leftLen := mid - a
          let rightLen := b - mid
          let wasB := min leftLen rightLen ≥ len / 8
          if leftLen < rightLen then
            let l4 := pdqsortLoop less fuel pr.1 a mid limit true true
            pdqsortLoop less fuel l4 (mid + 1) b limit wasB wasP
          else
            let l4 := pdqsortLoop less fuel pr.1 (mid + 1) b limit true true
            pdqsortLoop less fuel l4 a mid limit wasB wasP

/-- `sort.Slice(x, less)`: `pdqsort_func(data, 0, length, bits.Len(uint(length)))`. -/
def goSortSlice (less : α → α → Bool) [Inhabited α] (l : List α) : List α :=
  pdqsortLoop less (2 * l.length + 2 * bitsLen l.length + 4) l 0 l.length (bitsLen l.length) true true

/-- Reversed-prefix invariant of the insertion sort: scores non-decreasing
from the right end of the processed prefix. -/
def RevSorted (rev : List RankedJob) : Prop :=
  rev.Pairwise (fun a b => a.MatchScore ≤ b.MatchScore)

/-- The sub-sequence of jobs carrying one given score. -/
def scoreClass (s : Int) (l : List RankedJob) : List RankedJob :=
  l.filter (fun r => r.MatchScore == s)

/-! ## Spec-side definitions and concrete fixtures

`claimedQueryComposition` is the one definition in this file written from
the specification's words rather than from the source: claim C5 asserts
that `GenerateSearchQuery` equals this composition, so it is stated
separately and compared against the embedding.  `amendedQueryComposition`
is the same composition with the remote mode taken verbatim, which is
what the source actually does.  The `*Caps`/`*Input` values below are
concrete oracle fixtures used by witnesses and counterexamples. -/

/-- Concatenation of parts, each followed by one space (the shape
`GenerateSearchQuery` produces before the final `"job"`). -/
def spacedConcat : List String → String
  | [] => ""
  | s :: rest => s ++ " " ++ spacedConcat rest

/-- The hint-word mapping the specification claims for the query planner:
WFH to "remote", Hybrid to "hybrid". -/
def claimedModeHint (m : String) : String :=
  if m = "WFH" then "remote" else if m = "Hybrid" then "hybrid" else m

/-- The query composition as claim C5 words it: title (or first preferred
role), up to the first 3 skills, first preferred location, first preferred
remote mode mapped to a hint word, and the literal suffix "job". -/
def claimedQueryComposition (p : UserProfile) : String :=
  spacedConcat
    ((if p.Title ≠ "" then [p.Title] else p.PreferredRoles.take 1) ++
      p.Skills.take 3 ++ p.PreferredLocations.take 1 ++
      (p.PreferredRemoteModes.take 1).map claimedModeHint) ++ "job"

/-- The amended query composition: identical except that the first
preferred remote mode is appended verbatim, with no hint-word mapping. -/
def amendedQueryComposition (p : UserProfile) : String :=
  spacedConcat
    ((if p.Title ≠ "" then [p.Title] else p.PreferredRoles.take 1) ++
      p.Skills.take 3 ++ p.PreferredLocations.take 1 ++
      p.PreferredRemoteModes.take 1) ++ "job"

/-- The case lists of the `NormalizeWorkType` switch, with their enum
results (part_003:93-108). -/
def workTypeTable : List (List String × String) :=
  [(["full-time", "Full-Time", "Full Time", "fulltime", "FULL_TIME"], "full_time"),
   (["part-time", "Part-Time", "Part Time", "parttime", "PART_TIME"], "part_time"),
   (["contract", "Contract", "CONTRACT", "contractor"], "contract"),
   (["internship", "Internship", "INTERNSHIP", "intern"], "internship"),
   (["freelance", "Freelance", "FREELANCE"], "freelance")]

/-- All recognized work-type synonyms. -/
def workTypeSynonyms : List String := (workTypeTable.map Prod.fst).flatten

/-- The case lists of the `NormalizeSiteSetting` switch, with their enum
results (part_003:111-122). -/
def siteSettingTable : List (List String × String) :=
  [(["remote", "Remote", "REMOTE", "work from home", "Work From Home", "wfh"], "WFH"),
   (["onsite", "Onsite", "ONSITE", "on-site", "On-Site", "office", "Office", "wfo", "work from office"], "WFO"),
   (["hybrid", "Hybrid", "HYBRID", "flexible"], "Hybrid")]

/-- All recognized site-setting synonyms. -/
def siteSettingSynonyms : List String := (siteSettingTable.map Prod.fst).flatten

/-- A neutral oracle fixture: fixtures below override single fields. -/
def stubCaps : Capabilities where
  parseCVFromPDF := fun _ _ => .error "unavailable"
  parseCVText := fun _ => .ok {}
  refineGenerate := fun _ _ => .error "unavailable"
  refineUnmarshal := fun _ => none
  deriveProfileFromQuery := fun _ => .ok {}
  searchPage := fun _ _ => .ok []
  fetchHTTP := fun _ => .response 200 ""
  extractJobGen := fun _ _ => .error "unavailable"
  scoreJobGen := fun _ _ => .ok (80, "ok")
  isPreferredDetailURL := fun _ => true

/-- Oracle with every provider call failing (C1: search unreachable for
every scope and page). -/
def allSearchFailCaps : Capabilities :=
  { stubCaps with searchPage := fun _ _ => .error "PSE unreachable" }

/-- Oracle whose refine-generate call fails (C4). -/
def refineFailCaps : Capabilities :=
  { stubCaps with
    parseCVText := fun _ => .ok { Title := "Backend Engineer", Skills := ["Go"], PreferredRoles := [] }
    refineGenerate := fun _ _ => .error "model unavailable" }

/-- The profile the C4 oracle parses from the CV text. -/
def c4parsedProfile : UserProfile :=
  { Title := "Backend Engineer", Skills := ["Go"], PreferredRoles := [] }

/-- Oracle returning exactly one search hit on the first page of the first
scope (dedup suppresses its repetition on later scopes), whose fetch
succeeds with an empty body (C9, extraction short-circuit). -/
def oneHitCaps : Capabilities :=
  { stubCaps with
    searchPage := fun _ st => if st = 1 then .ok [{ Title := "t", Link := "u", Snippet := "s" }] else .ok [] }

/-- Oracle whose scoring call always fails (C8 witness). -/
def scoreFailCaps : Capabilities :=
  { stubCaps with scoreJobGen := fun _ _ => .error "scoring unavailable" }

/-- Oracle answering every fetch with HTTP 204 No Content (C10 witness). -/
def status204Caps : Capabilities :=
  { stubCaps with fetchHTTP := fun _ => .response 204 "ignored" }

/-- A ranked job with a one-letter title tag, used by the sort fixtures. -/
def tagJob (tag : String) (score : Int) : RankedJob :=
  { posting := { Title := tag }, MatchScore := score, MatchReason := "" }

/-- Thirteen scored jobs alternating between 70 and 60: enough to push
`sort.Slice` off its insertion-sort path (C3 counterexample input). -/
def c3jobs : List RankedJob :=
  [tagJob "a" 70, tagJob "b" 60, tagJob "c" 70, tagJob "d" 60, tagJob "e" 70,
   tagJob "f" 60, tagJob "g" 70, tagJob "h" 60, tagJob "i" 70, tagJob "j" 60,
   tagJob "k" 70, tagJob "l" 60, tagJob "m" 70]

/-- Four scored jobs with a tie (C3 amended witness input). -/
def c3smallJobs : List RankedJob :=
  [tagJob "a" 60, tagJob "b" 70, tagJob "c" 60, tagJob "d" 55]

/-- Twelve fetch outcomes of which eleven are eligible (C7 witness). -/
def c7pages : List FetchPageResponse :=
  [{ HTML := "h1", URL := "u1" }, { HTML := "h2", URL := "u2" }, { HTML := "h3", URL := "u3" },
   { HTML := "h4", URL := "u4" }, { HTML := "", URL := "u5", Error := "fetch failed: x" },
   { HTML := "h6", URL := "u6" }, { HTML := "h7", URL := "u7" }, { HTML := "h8", URL := "u8" },
   { HTML := "h9", URL := "u9" }, { HTML := "h10", URL := "u10" }, { HTML := "h11", URL := "u11" },
   { HTML := "h12", URL := "u12" }]

/-- Posting fixture for the scoring witnesses. -/
def c8job : JobPosting := { Title := "t" }

/-- The search response `SearchJobs` computes for a given input and
profile (the `searchResp` local of part_013:121). -/
def searchRespOf (caps : Capabilities) (input : SearchJobsInput) (profile : UserProfile) :
    WebSearchResponse :=
  SearchWithProfile caps profile (effectiveQueryOf input profile) input.Filters

/-- The concrete output of the C2 witness run (empty search, empty
results, zero statistics). -/
def c2out : SearchJobsOutput := { Results := [], Profile := some {}, Stats := {} }

/-- The statistics `SearchJobs` has accumulated when the extraction stage
comes back empty: URLs found, pages fetched and fetch errors; all later
counters zero. -/
def shortCircuitStats (caps : Capabilities) (input : SearchJobsInput)
    (profile : UserProfile) : SearchStats :=
  { URLsFound := (searchRespOf caps input profile).URLs.length
    PagesFetched := (fetchPagesConcurrently caps (searchRespOf caps input profile).URLs).length
    FetchErrors := ((fetchPagesConcurrently caps (searchRespOf caps input profile).URLs).filter
      (fun (p : FetchPageResponse) => decide (p.Error ≠ ""))).length }

/-! ## Lemmas about the insertion sort -/

theorem insertR_perm (less : α → α → Bool) (x : α) (rev : List α) :
    (insertR less x rev).Perm (x :: rev) := by
  induction rev with
  | nil => simp [insertR]
  | cons y rev ih =>
    simp only [insertR]
    split
    · exact ((ih.cons y).trans (List.Perm.swap x y rev))
    · exact List.Perm.refl _

theorem goInsertionSortAux_perm (less : α → α → Bool) (rest : List α) :
    ∀ rev : List α, (goInsertionSortAux less rev rest).Perm (rev ++ rest) := by
  induction rest with
  | nil => intro rev; simp [goInsertionSortAux, List.reverse_perm rev]
  | cons x rest ih =>
    intro rev
    have h1 := ih (insertR less x rev)
    have h2 : (insertR less x rev ++ rest).Perm ((x :: rev) ++ rest) :=
      (insertR_perm less x rev).append_right rest
    exact (h1.trans (h2.trans List.perm_middle.symm))

theorem goInsertionSort_perm (less : α → α → Bool) (l : List α) :
    (goInsertionSort less l).Perm l := by
  simpa [goInsertionSort] using goInsertionSortAux_perm less l []

theorem goInsertionSort_length (less : α → α → Bool) (l : List α) :
    (goInsertionSort less l).length = l.length :=
  (goInsertionSort_perm less l).length_eq

theorem mem_goInsertionSort (less : α → α → Bool) {l : List α} {x : α} :
    x ∈ goInsertionSort less l ↔ x ∈ l :=
  (goInsertionSort_perm less l).mem_iff

theorem mem_insertR (less : α → α → Bool) {x z : α} {rev : List α} :
    z ∈ insertR less x rev ↔ z = x ∨ z ∈ rev := by
  rw [(insertR_perm less x rev).mem_iff]; simp

theorem insertR_revSorted {x : RankedJob} {rev : List RankedJob} (h : RevSorted rev) :
    RevSorted (insertR lessRanked x rev) := by
  induction rev with
  | nil => simp [insertR, RevSorted]
  | cons y rev ih =>
    rcases List.pairwise_cons.mp h with ⟨hy, hrev⟩
    simp only [insertR]
    split
    · rename_i hlt
      have hxy : y.MatchScore ≤ x.MatchScore := by
        simp only [lessRanked, decide_eq_true_eq] at hlt
        omega
      refine List.pairwise_cons.mpr ⟨?_, ih hrev⟩
      intro z hz
      rcases (mem_insertR lessRanked).mp hz with rfl | hz
      · exact hxy
      · exact hy z hz
    · rename_i hge
      have hxy : x.MatchScore ≤ y.MatchScore := by
        simp only [lessRanked, decide_eq_true_eq] at hge
        omega
      refine List.pairwise_cons.mpr ⟨?_, h⟩
      intro z hz
      rcases hz with _ | hz
      · exact hxy
      · exact le_trans hxy (hy z (by assumption))

theorem goInsertionSortAux_sorted (rest : List RankedJob) :
    ∀ rev : List RankedJob, RevSorted rev →
      (goInsertionSortAux lessRanked rev rest).Pairwise (fun a b => b.MatchScore ≤ a.MatchScore) := by
  induction rest with
  | nil =>
    intro rev h
    simpa [goInsertionSortAux, List.pairwise_reverse] using h
  | cons x rest ih =>
    intro rev h
    exact ih (insertR lessRanked x rev) (insertR_revSorted h)

/-- The final sort orders scores non-increasingly. -/
theorem goInsertionSort_sorted (l : List RankedJob) :
    (goInsertionSort lessRanked l).Pairwise (fun a b => b.MatchScore ≤ a.MatchScore) :=
  goInsertionSortAux_sorted l [] (by simp [RevSorted])

theorem scoreClass_insertR_eq {x : RankedJob} {s : Int} (rev : List RankedJob)
    (hx : x.MatchScore = s) :
    scoreClass s (insertR lessRanked x rev) = x :: scoreClass s rev := by
  induction rev with
  | nil => simp [insertR, scoreClass, hx]
  | cons y rev ih =>
    simp only [insertR]
    split
    · rename_i hlt
      have hy : ¬ y.MatchScore = s := by
        simp only [lessRanked, decide_eq_true_eq] at hlt
        omega
      simp [scoreClass, List.filter_cons, hy] at ih ⊢
      exact ih
    · simp [scoreClass, List.filter_cons, hx]

theorem scoreClass_insertR_ne {x : RankedJob} {s : Int} (rev : List RankedJob)
    (hx : ¬ x.MatchScore = s) :
    scoreClass s (insertR lessRanked x rev) = scoreClass s rev := by
  induction rev with
  | nil => simp [insertR, scoreClass, hx]
  | cons y rev ih =>
    simp only [insertR]
    split
    · simp only [scoreClass, List.filter_cons] at ih ⊢
      split <;> simp [ih]
    · simp [scoreClass, List.filter_cons, hx]

theorem scoreClass_goInsertionSortAux (s : Int) (rest : List RankedJob) :
    ∀ rev : List RankedJob,
      scoreClass s (goInsertionSortAux lessRanked rev rest) =
        (scoreClass s rev).reverse ++ scoreClass s rest := by
  induction rest with
  | nil =>
    intro rev
    simp [goInsertionSortAux, scoreClass, List.filter_reverse]
  | cons x rest ih =>
    intro rev
    simp only [goInsertionSortAux]
    rw [ih]
    by_cases hx : x.MatchScore = s
    · rw [scoreClass_insertR_eq rev hx]
      simp [scoreClass, List.filter_cons, hx]
    · rw [scoreClass_insertR_ne rev hx]
      simp [scoreClass, List.filter_cons, hx]

/-- Stability of the insertion sort: each score class keeps its input
order. -/
theorem scoreClass_goInsertionSort (s : Int) (l : List RankedJob) :
    scoreClass s (goInsertionSort lessRanked l) = scoreClass s l := by
  simpa [scoreClass] using scoreClass_goInsertionSortAux s l []

/-- Below 13 elements, `sort.Slice` is exactly the insertion sort. -/
theorem goSortSlice_eq_goInsertionSort_of_short (less : α → α → Bool) [Inhabited α]
    (l : List α) (h : l.length ≤ 12) :
    goSortSlice less l = goInsertionSort less l := by
  have hrange : insertionSortRange less l 0 l.length = goInsertionSort less l := by
    simp [insertionSortRange]
  rw [goSortSlice]
  have hfuel : 2 * l.length + 2 * bitsLen l.length + 4 =
      (2 * l.length + 2 * bitsLen l.length + 3) + 1 := rfl
  rw [hfuel, pdqsortLoop]
  simp only [Nat.sub_zero]
  rw [if_pos h]
  exact hrange

/-! ## Small facts used by several claim proofs -/

theorem append_ne_empty_left (s t : String) (hs : s.length ≠ 0) : s ++ t ≠ "" := by
  intro h
  have hlen := congrArg String.length h
  rw [String.length_append] at hlen
  have hz : ("" : String).length = 0 := rfl
  omega

/-! ## Claim C10: the fetch stage accepts only HTTP status exactly 200 -/

/-- C10: for every URL whose HTTP response carries any status other than
200 (including other 2xx codes), the fetch outcome is a per-URL error with
a non-empty error message and empty HTML, never a success. -/
theorem fetch_rejects_non_200 (caps : Capabilities) (url : String) (status : Nat) (body : String)
    (hresp : caps.fetchHTTP url = .response status body) (hstatus : status ≠ 200) :
    (FetchURL caps url).Error ≠ "" ∧ (FetchURL caps url).HTML = "" ∧
      (FetchURL caps url).URL = url := by
  have h1 : FetchURL caps url =
      { URL := url, Error := "fetch failed: " ++ ("page returned status " ++ toString status) } := by
    simp only [FetchURL, fetchPage, hresp, if_pos hstatus]
  rw [h1]
  exact ⟨append_ne_empty_left "fetch failed: " _ (by decide), rfl, rfl⟩

/-- C10 witness: a 204 No Content response is recorded as a per-URL error
with empty HTML. -/
theorem fetch_rejects_non_200_witness :
    (FetchURL status204Caps "https://a.example").Error ≠ "" ∧
      (FetchURL status204Caps "https://a.example").HTML = "" ∧
      (FetchURL status204Caps "https://a.example").URL = "https://a.example" :=
  fetch_rejects_non_200 status204Caps "https://a.example" 204 "ignored" rfl (by decide)

/-! ## Claim C6: work-type / site-setting normalization -/

/-- C6 counterexample: normalization is not case-insensitive and does not
accept the canonical enum values themselves.  The canonical site-setting
value "WFH" normalizes to "Unknown", and the casing variant "FULL-TIME"
passes through unchanged instead of mapping to "full_time". -/
theorem normalize_counterexample :
    NormalizeSiteSetting "WFH" = "Unknown" ∧ NormalizeSiteSetting "WFH" ≠ "WFH" ∧
      NormalizeWorkType "FULL-TIME" = "FULL-TIME" ∧ NormalizeWorkType "FULL-TIME" ≠ "full_time" := by
  constructor
  · rfl
  constructor
  · decide
  constructor
  · rfl
  · decide

/-- C6 amended: normalization recognizes exactly the fixed, literal
synonym lists of the two switches (specific casings only); every listed
synonym maps to its enum value, every other site-setting string (the
canonical "WFH"/"WFO" included) maps to "Unknown", and every other
work-type string passes through unchanged. -/
theorem normalize_synonym_tables :
    (∀ c ∈ workTypeTable, ∀ raw ∈ c.1, NormalizeWorkType raw = c.2) ∧
    (∀ raw : String, raw ∉ workTypeSynonyms → NormalizeWorkType raw = raw) ∧
    (∀ c ∈ siteSettingTable, ∀ raw ∈ c.1, NormalizeSiteSetting raw = c.2) ∧
    (∀ raw : String, raw ∉ siteSettingSynonyms → NormalizeSiteSetting raw = "Unknown") := by
  refine ⟨?_, ?_, ?_, ?_⟩
  · intro c hc raw hraw
    fin_cases hc <;> fin_cases hraw <;> rfl
  · intro raw h
    simp only [workTypeSynonyms, workTypeTable, List.map_cons, List.map_nil, List.flatten,
      List.append_nil, List.mem_append, List.mem_cons, List.not_mem_nil, or_false, not_or] at h
    simp only [NormalizeWorkType, List.mem_cons, List.not_mem_nil, or_false]
    simp_all
  · intro c hc raw hraw
    fin_cases hc <;> fin_cases hraw <;> rfl
  · intro raw h
    simp only [siteSettingSynonyms, siteSettingTable, List.map_cons, List.map_nil, List.flatten,
      List.append_nil, List.mem_append, List.mem_cons, List.not_mem_nil, or_false, not_or] at h
    simp only [NormalizeSiteSetting, List.mem_cons, List.not_mem_nil, or_false]
    simp_all

/-- C6 witness: a recognized synonym maps to its enum value, and an
unrecognized string falls through to the defaults. -/
theorem normalize_synonym_tables_witness :
    NormalizeWorkType "Full-Time" = "full_time" ∧ NormalizeSiteSetting "work from home" = "WFH" ∧
      NormalizeWorkType "zzz" = "zzz" ∧ NormalizeSiteSetting "zzz" = "Unknown" :=
  ⟨normalize_synonym_tables.1 (["full-time", "Full-Time", "Full Time", "fulltime", "FULL_TIME"], "full_time")
      (by decide) "Full-Time" (by decide),
   normalize_synonym_tables.2.2.1
      (["remote", "Remote", "REMOTE", "work from home", "Work From Home", "wfh"], "WFH")
      (by decide) "work from home" (by decide),
   normalize_synonym_tables.2.1 "zzz" (by decide),
   normalize_synonym_tables.2.2.2 "zzz" (by decide)⟩

/-! ## Claim C5: the query planner composition -/

theorem empty_append_str (s : String) : "" ++ s = s := rfl

theorem spacedConcat_append (xs ys : List String) :
    spacedConcat (xs ++ ys) = spacedConcat xs ++ spacedConcat ys := by
  induction xs with
  | nil => simp [spacedConcat, empty_append_str]
  | cons x xs ih => simp [spacedConcat, ih, String.append_assoc]

theorem foldl_spaced (xs : List String) :
    ∀ q : String, xs.foldl (fun q s => q ++ (s ++ " ")) q = q ++ spacedConcat xs := by
  induction xs with
  | nil => intro q; simp [spacedConcat]
  | cons x xs ih =>
    intro q
    rw [List.foldl_cons, ih]
    simp [spacedConcat, String.append_assoc]

/-- C5 counterexample: the query planner appends the raw first preferred
remote mode.  With remote mode "WFH" the code produces "Engineer WFH job",
not the claimed "Engineer remote job". -/
theorem generateSearchQuery_counterexample :
    GenerateSearchQuery { Title := "Engineer", PreferredRemoteModes := ["WFH"] } = "Engineer WFH job" ∧
      claimedQueryComposition { Title := "Engineer", PreferredRemoteModes := ["WFH"] } = "Engineer remote job" ∧
      GenerateSearchQuery { Title := "Engineer", PreferredRemoteModes := ["WFH"] } ≠
        claimedQueryComposition { Title := "Engineer", PreferredRemoteModes := ["WFH"] } := by
  refine ⟨rfl, rfl, ?_⟩
  decide

/-- C5 amended: the generated query is the deterministic composition the
claim describes except that the first preferred remote mode is appended
verbatim — the WFH-to-"remote" / Hybrid-to-"hybrid" mapping does not exist
in the planner (it lives in the search tool's `buildQuery` instead). -/
theorem generateSearchQuery_eq_amended (p : UserProfile) :
    GenerateSearchQuery p = amendedQueryComposition p := by
  unfold GenerateSearchQuery amendedQueryComposition
  by_cases ht : p.Title = "" <;>
    cases hr : p.PreferredRoles <;>
    cases hl : p.PreferredLocations <;>
    cases hm : p.PreferredRemoteModes <;>
    simp [ht, hr, hl, hm, foldl_spaced, spacedConcat_append, spacedConcat,
      empty_append_str, String.append_assoc]

/-! ## Claim C7: the extraction worklist -/

/-- C7: extraction is attempted exactly on the eligible fetch outcomes (no
fetch error, non-empty HTML); when more than 10 are eligible, exactly the
first 10 in input order are attempted; the worklist is always a
sub-sequence of the input. -/
theorem extraction_attempts_cap (pages : List FetchPageResponse) :
    (∀ p ∈ extractAttempts pages, p.Error = "" ∧ p.HTML ≠ "") ∧
    ((validPagesOf pages).length ≤ 10 → extractAttempts pages = validPagesOf pages) ∧
    (10 < (validPagesOf pages).length →
      extractAttempts pages = (validPagesOf pages).take 10 ∧ (extractAttempts pages).length = 10) ∧
    (extractAttempts pages).Sublist pages := by
  refine ⟨?_, ?_, ?_, ?_⟩
  · intro p hp
    have hvalid : p ∈ validPagesOf pages := by
      by_cases h10 : (validPagesOf pages).length > 10
      · simp only [extractAttempts, if_pos h10] at hp
        exact List.mem_of_mem_take hp
      · simp only [extractAttempts, if_neg h10] at hp
        exact hp
    have := (List.mem_filter.mp hvalid).2
    simp only [eligiblePage, Bool.and_eq_true, decide_eq_true_eq] at this
    exact ⟨this.1, by simpa using this.2⟩
  · intro h
    simp [extractAttempts, Nat.not_lt.mpr h]
  · intro h
    have he : extractAttempts pages = (validPagesOf pages).take 10 := by
      simp [extractAttempts, if_pos h]
    refine ⟨he, ?_⟩
    rw [he, List.length_take]
    omega
  · have h1 : (extractAttempts pages).Sublist (validPagesOf pages) := by
      by_cases h10 : (validPagesOf pages).length > 10
      · simp only [extractAttempts, if_pos h10]
        exact List.take_sublist 10 _
      · simp [extractAttempts, if_neg h10]
    exact h1.trans (List.filter_sublist pages)

/-- C7 witness: with 11 eligible pages among 12 outcomes, exactly the
first 10 eligible pages are attempted. -/
theorem extraction_attempts_cap_witness :
    (10 < (validPagesOf c7pages).length →
      extractAttempts c7pages = (validPagesOf c7pages).take 10 ∧
        (extractAttempts c7pages).length = 10) ∧
    10 < (validPagesOf c7pages).length :=
  ⟨(extraction_attempts_cap c7pages).2.2.1, by decide⟩

/-! ## Claim C8: scoring never drops a posting -/

/-- C8: the scoring stage returns exactly one ranked job per input posting
(in the modelled order, the postings themselves in order), and every
posting whose scoring call fails carries score 50 and the fixed non-empty
fallback reason. -/
theorem scoring_one_per_posting (caps : Capabilities) (profile : UserProfile)
    (jobs : List JobPosting) :
    (scoreJobsConcurrently caps profile jobs).map (fun r => r.posting) = jobs ∧
    (∀ r ∈ scoreJobsConcurrently caps profile jobs,
      isErrE (caps.scoreJobGen profile r.posting) = true →
        r.MatchScore = 50 ∧ r.MatchReason = "Unable to calculate match score" ∧
          r.MatchReason ≠ "") := by
  constructor
  · induction jobs with
    | nil => rfl
    | cons j jobs ih =>
      simp only [scoreJobsConcurrently, List.map_cons] at ih ⊢
      refine congrArg₂ (· :: ·) ?_ ih
      cases caps.scoreJobGen profile j <;> rfl
  · intro r hr herr
    simp only [scoreJobsConcurrently, List.mem_map] at hr
    obtain ⟨j, hj, hrj⟩ := hr
    cases hcall : caps.scoreJobGen profile j with
    | ok v =>
      rw [hcall] at hrj
      have hpost : r.posting = j := by cases hrj; rfl
      rw [hpost, hcall] at herr
      simp [isErrE] at herr
    | error e =>
      rw [hcall] at hrj
      have hrj2 : (RankedJob.mk j 50 "Unable to calculate match score") = r := hrj
      subst hrj2
      refine ⟨rfl, rfl, ?_⟩
      show ("Unable to calculate match score" : String) ≠ ""
      decide

/-- C8 witness: a posting whose scoring call fails is still returned, with
score 50 and the fixed fallback reason. -/
theorem scoring_one_per_posting_witness :
    (scoreJobsConcurrently scoreFailCaps {} [c8job]).map (fun r => r.posting) = [c8job] ∧
      ({ posting := c8job, MatchScore := 50, MatchReason := "Unable to calculate match score" } : RankedJob).MatchScore = 50 ∧
      ({ posting := c8job, MatchScore := 50, MatchReason := "Unable to calculate match score" } : RankedJob).MatchReason = "Unable to calculate match score" ∧
      ({ posting := c8job, MatchScore := 50, MatchReason := "Unable to calculate match score" } : RankedJob).MatchReason ≠ "" :=
  ⟨(scoring_one_per_posting scoreFailCaps {} [c8job]).1,
   (scoring_one_per_posting scoreFailCaps {} [c8job]).2
      { posting := c8job, MatchScore := 50, MatchReason := "Unable to calculate match score" }
      (by decide) rfl⟩

/-! ## Claim C4: refine failure loses the profile (code bug) -/

/-- C4: with CV text and a query, when the refine-with-query generate call
fails, `buildUserProfile` does not keep the unrefined profile: the Go
multiple assignment overwrites the profile pointer with the call's nil
result, so the build returns a nil profile and the subsequent dereference
in `SearchJobs` panics. -/
theorem refine_failure_loses_profile :
    buildUserProfile refineFailCaps { CVText := "cv", Query := "remote golang" } = .ok none ∧
      refineFailCaps.parseCVText "cv" = .ok c4parsedProfile ∧
      SearchJobs {} refineFailCaps { CVText := "cv", Query := "remote golang" } =
        .error (.panicked "nil profile dereference in SearchJobs") :=
  ⟨rfl, rfl, rfl⟩

/-! ## Claim C2: the ranking postcondition -/

theorem rankStage_ok (cfg : AgentConfig) (ranked final : List RankedJob)
    (h : rankStage cfg ranked = .ok final) :
    final.length ≤ cfg.MaxJobResults.toNat ∧ final.length ≤ ranked.length ∧
    (∀ r ∈ final, 50 ≤ r.MatchScore) ∧
    final.Pairwise (fun a b => b.MatchScore ≤ a.MatchScore) := by
  unfold rankStage at h
  have hsl : (goInsertionSort lessRanked (ranked.filter (fun job => 50 ≤ job.MatchScore))).length
      ≤ ranked.length := by
    rw [goInsertionSort_length]
    exact List.length_filter_le _ ranked
  have hmem : ∀ r ∈ goInsertionSort lessRanked (ranked.filter (fun job => 50 ≤ job.MatchScore)),
      50 ≤ r.MatchScore := by
    intro r hr
    have := (List.mem_filter.mp ((mem_goInsertionSort lessRanked).mp hr)).2
    exact of_decide_eq_true this
  have hsort := goInsertionSort_sorted (ranked.filter (fun job => 50 ≤ job.MatchScore))
  by_cases hgt : ((goInsertionSort lessRanked (ranked.filter (fun job => 50 ≤ job.MatchScore))).length : Int)
      > cfg.MaxJobResults
  · rw [if_pos hgt] at h
    by_cases hneg : cfg.MaxJobResults < 0
    · rw [if_pos hneg] at h
      simp at h
    · rw [if_neg hneg] at h
      injection h with h2
      subst h2
      refine ⟨?_, ?_, ?_, ?_⟩
      · rw [List.length_take]
        omega
      · calc ((goInsertionSort lessRanked _).take cfg.MaxJobResults.toNat).length
              ≤ (goInsertionSort lessRanked _).length := by
                rw [List.length_take]; omega
          _ ≤ ranked.length := hsl
      · intro r hr
        exact hmem r (List.mem_of_mem_take hr)
      · exact hsort.sublist (List.take_sublist _ _)
  · rw [if_neg hgt] at h
    injection h with h2
    subst h2
    refine ⟨?_, hsl, hmem, hsort⟩
    omega

/-- C2: every run that returns without a fatal error satisfies the ranking
postcondition: at most `min(maxResults, jobsScored)` results (the
configured maximum read as a count), every returned job scoring at least
50, and scores non-increasing. -/
theorem searchjobs_ranking_postcondition (cfg : AgentConfig) (caps : Capabilities)
    (input : SearchJobsInput) (out : SearchJobsOutput)
    (h : SearchJobs cfg caps input = .ok out) :
    out.Results.length ≤ min cfg.MaxJobResults.toNat out.Stats.JobsScored ∧
    (∀ r ∈ out.Results, 50 ≤ r.MatchScore) ∧
    out.Results.Pairwise (fun a b => b.MatchScore ≤ a.MatchScore) := by
  unfold SearchJobs at h
  cases hb : buildUserProfile caps input with
  | error e =>
    rw [hb] at h
    cases e <;> simp at h
  | ok po =>
    rw [hb] at h
    cases po with
    | none => simp at h
    | some profile =>
      simp only [] at h
      split at h
      · injection h with h2
        subst h2
        simp
      · split at h
        · injection h with h2
          subst h2
          simp
        · split at h
          · simp at h
          · rename_i final heq
            injection h with h2
            subst h2
            obtain ⟨l1, l2, l3, l4⟩ := rankStage_ok cfg _ final heq
            exact ⟨Nat.le_min.mpr ⟨l1, l2⟩, l3, l4⟩

/-- C2 witness: a run whose search finds nothing returns successfully and
satisfies the postcondition. -/
theorem searchjobs_ranking_postcondition_witness :
    SearchJobs {} stubCaps { Query := "job" } = .ok c2out ∧
      c2out.Results.length ≤ min ({} : AgentConfig).MaxJobResults.toNat c2out.Stats.JobsScored ∧
      c2out.Results.Pairwise (fun a b => b.MatchScore ≤ a.MatchScore) :=
  ⟨rfl,
   (searchjobs_ranking_postcondition {} stubCaps { Query := "job" } c2out rfl).1,
   (searchjobs_ranking_postcondition {} stubCaps { Query := "job" } c2out rfl).2.2⟩

/-! ## Claim C9: empty intermediate results are not errors -/

theorem searchJobs_of_empty_urls (cfg : AgentConfig) (caps : Capabilities)
    (input : SearchJobsInput) (profile : UserProfile)
    (hb : buildUserProfile caps input = .ok (some profile))
    (hu : (searchRespOf caps input profile).URLs = []) :
    SearchJobs cfg caps input = .ok { Results := [], Profile := some profile, Stats := {} } := by
  unfold SearchJobs
  rw [hb]
  simp only [searchRespOf] at hu
  simp [hu]

theorem searchJobs_of_empty_jobs (cfg : AgentConfig) (caps : Capabilities)
    (input : SearchJobsInput) (profile : UserProfile)
    (hb : buildUserProfile caps input = .ok (some profile))
    (hne : (searchRespOf caps input profile).URLs ≠ [])
    (hj : extractJobsConcurrently caps
        (fetchPagesConcurrently caps (searchRespOf caps input profile).URLs) = []) :
    SearchJobs cfg caps input = .ok { Results := [], Profile := some profile,
                                      Stats := shortCircuitStats caps input profile } := by
  unfold SearchJobs
  rw [hb]
  simp only [searchRespOf] at hne hj
  have hlen : ¬ ((SearchWithProfile caps profile (effectiveQueryOf input profile) input.Filters).URLs.length = 0) := by
    intro h0
    exact hne (List.length_eq_zero.mp h0)
  simp only [hj, List.length_nil, if_neg hlen, if_pos]
  rfl

/-- C9: a run whose search stage yields zero URLs short-circuits and
returns an empty ranked list, the profile and zeroed statistics with a nil
error; likewise, a run whose extraction stage yields zero postings
short-circuits with the partial statistics accumulated so far (URLs found,
pages fetched, fetch errors) and a nil error. -/
theorem searchjobs_empty_results_not_error (cfg : AgentConfig) (caps : Capabilities)
    (input : SearchJobsInput) (profile : UserProfile)
    (hb : buildUserProfile caps input = .ok (some profile)) :
    ((searchRespOf caps input profile).URLs = [] →
      SearchJobs cfg caps input = .ok { Results := [], Profile := some profile, Stats := {} }) ∧
    ((searchRespOf caps input profile).URLs ≠ [] →
      extractJobsConcurrently caps
          (fetchPagesConcurrently caps (searchRespOf caps input profile).URLs) = [] →
      SearchJobs cfg caps input = .ok { Results := [], Profile := some profile,
                                        Stats := shortCircuitStats caps input profile }) :=
  ⟨fun hu => searchJobs_of_empty_urls cfg caps input profile hb hu,
   fun hne hj => searchJobs_of_empty_jobs cfg caps input profile hb hne hj⟩

/-- C9 witness: a zero-URL search and a zero-posting extraction both end
the run successfully with the expected partial statistics. -/
theorem searchjobs_empty_results_not_error_witness :
    SearchJobs {} stubCaps { Query := "job" } =
      .ok { Results := [], Profile := some {}, Stats := {} } ∧
    SearchJobs {} oneHitCaps { Query := "job" } =
      .ok { Results := [], Profile := some {}, Stats := { URLsFound := 1, PagesFetched := 1 } } :=
  ⟨(searchjobs_empty_results_not_error {} stubCaps { Query := "job" } {} rfl).1 rfl,
   (searchjobs_empty_results_not_error {} oneHitCaps { Query := "job" } {} rfl).2
     (by decide) rfl⟩

/-! ## Claim C1: an unreachable search provider is not fatal -/

theorem searchScope_all_fail (caps : Capabilities) (siteQuery : String) (acc : SearchAcc)
    (starts : List Nat) (hfail : ∀ q n, isErrE (caps.searchPage q n) = true) :
    searchScope caps siteQuery acc starts = acc := by
  cases starts with
  | nil => rfl
  | cons st rest =>
    have h := hfail siteQuery st
    simp only [searchScope]
    cases hc : caps.searchPage siteQuery st with
    | error e => rfl
    | ok items => rw [hc] at h; simp [isErrE] at h

theorem searchWeb_all_fail (caps : Capabilities) (query : String)
    (hfail : ∀ q n, isErrE (caps.searchPage q n) = true) :
    searchWeb caps query = [] := by
  have hfold : ∀ (sites : List String) (acc : SearchAcc),
      sites.foldl (fun acc site => searchScope caps (query ++ " " ++ site) acc searchStarts) acc = acc := by
    intro sites
    induction sites with
    | nil => intro acc; rfl
    | cons s sites ih =>
      intro acc
      rw [List.foldl_cons, searchScope_all_fail caps _ acc searchStarts hfail]
      exact ih acc
  simp only [searchWeb, hfold]

/-- C1 counterexample: with every provider call failing for every scope
and page (`allSearchFailCaps.searchPage` is constantly an error),
`SearchJobs` does not return an error: it returns an empty result set with
zero statistics and a nil error. -/
theorem searchProviderFailed_counterexample :
    SearchJobs {} allSearchFailCaps { Query := "golang" } =
      .ok { Results := [], Profile := some {}, Stats := {} } := rfl

/-- C1 amended: a provider failure is never fatal.  When every provider
call fails (so every scope is skipped), the search stage returns an empty
URL list with a nil error and `SearchJobs` returns an empty result set
with the profile and all-zero statistics — not an error. -/
theorem searchProviderFailed_amended (cfg : AgentConfig) (caps : Capabilities)
    (input : SearchJobsInput) (profile : UserProfile)
    (hfail : ∀ q n, isErrE (caps.searchPage q n) = true)
    (hb : buildUserProfile caps input = .ok (some profile)) :
    searchWeb caps (buildQuery { Query := effectiveQueryOf input profile,
                                 Locations := if input.Filters.Locations.length = 0 then profile.PreferredLocations else input.Filters.Locations,
                                 RemoteModes := if input.Filters.RemoteModes.length = 0 then profile.PreferredRemoteModes else input.Filters.RemoteModes }) = [] ∧
    SearchJobs cfg caps input = .ok { Results := [], Profile := some profile, Stats := {} } := by
  constructor
  · exact searchWeb_all_fail caps _ hfail
  · apply searchJobs_of_empty_urls cfg caps input profile hb
    simp only [searchRespOf, SearchWithProfile, searchWeb_all_fail caps _ hfail]
    rfl

/-- C1 witness: the amended statement at the concrete all-failing oracle. -/
theorem searchProviderFailed_amended_witness :
    searchWeb allSearchFailCaps (buildQuery { Query := "golang" }) = [] ∧
      SearchJobs {} allSearchFailCaps { Query := "golang" } =
        .ok { Results := [], Profile := some {}, Stats := {} } :=
  searchProviderFailed_amended {} allSearchFailCaps { Query := "golang" } {}
    (fun _ _ => rfl) rfl

/-! ## Claim C3: the final sort is not stable -/

/-- C3 counterexample: the final sort is `sort.Slice`, which runs the full
pdqsort on 13 or more elements and is not stable.  On the 13 scored jobs
of `c3jobs` the seven jobs with score 70 enter in title order
a, c, e, g, i, k, m and leave the sort in order i, m, c, a, e, k, g. -/
theorem sortSlice_stability_counterexample :
    scoreClass 70 c3jobs =
      [tagJob "a" 70, tagJob "c" 70, tagJob "e" 70, tagJob "g" 70,
       tagJob "i" 70, tagJob "k" 70, tagJob "m" 70] ∧
    scoreClass 70 (goSortSlice lessRanked c3jobs) =
      [tagJob "i" 70, tagJob "m" 70, tagJob "c" 70, tagJob "a" 70,
       tagJob "e" 70, tagJob "k" 70, tagJob "g" 70] ∧
    scoreClass 70 (goSortSlice lessRanked c3jobs) ≠ scoreClass 70 c3jobs := by
  refine ⟨by decide, by decide, by decide⟩

/-- C3 amended: the final sort preserves the relative order of equal
scores only while `sort.Slice` stays on its insertion-sort path, i.e. for
at most 12 scored jobs; beyond that, equal-score jobs may be reordered
(see the counterexample). -/
theorem sortSlice_stable_upto_12 (l : List RankedJob) (h : l.length ≤ 12) (s : Int) :
    scoreClass s (goSortSlice lessRanked l) = scoreClass s l := by
  rw [goSortSlice_eq_goInsertionSort_of_short lessRanked l h]
  exact scoreClass_goInsertionSort s l

/-- C3 witness: a four-element list with a tie keeps its tie order. -/
theorem sortSlice_stable_upto_12_witness :
    c3smallJobs.length ≤ 12 ∧
      scoreClass 60 (goSortSlice lessRanked c3smallJobs) = scoreClass 60 c3smallJobs :=
  ⟨by decide, sortSlice_stable_upto_12 c3smallJobs (by decide) 60⟩
